import Mathlib

/-!
Shallow embedding of the swaylock-custom screen locker (src/main.c and the
renderer translation unit) together with proofs of the specification claims.

Pure C functions become Lean functions; the globally mutable swaylock_state
struct becomes an explicit state record threaded through each callback;
machine integers are Nat with explicit reduction mod 2^32 where the C code
works in uint32_t; environment interaction (pipe creation, Wayland dispatch
results, poll readiness) is passed in as explicit data.
-/

namespace Swaylock

/-- Authentication state, from the auth_state field (AUTH_STATE_IDLE,
AUTH_STATE_VALIDATING, AUTH_STATE_INVALID). -/
inductive AuthState where
  | idle
  | validating
  | invalid
deriving DecidableEq

/-- Input state, from the input_state field (INPUT_STATE_IDLE,
INPUT_STATE_LETTER, INPUT_STATE_BACKSPACE, INPUT_STATE_CLEAR). -/
inductive InputState where
  | idle
  | letter
  | backspace
  | clear
deriving DecidableEq

/-- The struct swaylock_colors color set. Each color is a uint32_t RGBA
value, embedded as a Nat below 2^32. -/
structure Colors where
  background : Nat
  text : Nat
  highlight_bs : Nat
  highlight_key : Nat
  ring : Nat
  highlight_clear : Nat
  highlight_ver : Nat
  highlight_wrong : Nat
deriving DecidableEq

/-- Background scaling mode. The named modes are the ones listed in the
usage text of parse_options ("stretch, fill, fit, center, tile,
solid_color"); BACKGROUND_MODE_INVALID marks a rejected mode string. -/
inductive BackgroundMode where
  | stretch
  | fill
  | fit
  | center
  | tile
  | solidColor
  | invalid
deriving DecidableEq

/-- The struct swaylock_args option set, restricted to the fields the
verified claims touch. -/
structure Args where
  ignoreEmpty : Bool
  showIndicator : Bool
  indicatorIdleVisible : Bool
  clock : Bool
  radius : Int
  thickness : Int
  indicatorXPosition : Int
  indicatorYPosition : Int
  mode : BackgroundMode
  fontSize : Int
  timestr : String
  datestr : String
  colors : Colors
deriving DecidableEq

/-- The password buffer bookkeeping visible to main.c: current length and
allocated capacity (the protected bytes themselves live behind the
password-buffer abstraction). -/
structure PasswordBuffer where
  len : Nat
  bufferLen : Nat
deriving DecidableEq

/-- Per-output surface bookkeeping used by damage_surface: configured size
and the dirty / frame_pending flags. -/
structure RSurface where
  width : Nat
  height : Nat
  dirty : Bool
  framePending : Bool
deriving DecidableEq

/-- The global struct swaylock_state, restricted to the fields the claims
are about, made an explicit record. -/
structure SwaylockState where
  authState : AuthState
  inputState : InputState
  failedAttempts : Nat
  runDisplay : Bool
  locked : Bool
  password : PasswordBuffer
  authIdleTimerArmed : Bool
  highlightStart : Nat
  surfaces : List RSurface
  args : Args
deriving DecidableEq

/-- set_default_colors from src/main.c, including the seven-digit ring
literal 0x3498DBF exactly as written there. -/
def set_default_colors : Colors :=
  { background := 0x95A5A6FF
    text := 0x2C3E50FF
    highlight_bs := 0xE67E22FF
    highlight_key := 0x1ABC9CFF
    ring := 0x3498DBF
    highlight_clear := 0x27AE60FF
    highlight_ver := 0x7f8C8DFF
    highlight_wrong := 0xC0392BFF }

/-- The swaylock_args initializer in main (src/main.c lines 812-828)
followed by set_default_colors. -/
def default_args : Args :=
  { ignoreEmpty := true
    showIndicator := true
    indicatorIdleVisible := false
    clock := true
    radius := 50
    thickness := 10
    indicatorXPosition := -1
    indicatorYPosition := -1
    mode := BackgroundMode.fill
    fontSize := 0
    timestr := "%T"
    datestr := "%a, %x"
    colors := set_default_colors }

/-- The state as main has set it up before entering the event loop:
state is a zero-initialized static (both enum fields are the zero value
IDLE), failed_attempts is set to 0, and the password buffer is created
with buffer_len 1024 and len 0 (src/main.c lines 755, 811, 859-861). -/
def initial_state : SwaylockState :=
  { authState := AuthState.idle
    inputState := InputState.idle
    failedAttempts := 0
    runDisplay := false
    locked := false
    password := { len := 0, bufferLen := 1024 }
    authIdleTimerArmed := false
    highlightStart := 0
    surfaces := []
    args := default_args }

/-- Value of one hexadecimal digit character, none for a non-digit. -/
def hexVal (c : Char) : Option Nat :=
  if '0' ≤ c ∧ c ≤ '9' then some (c.toNat - 48)
  else if 'a' ≤ c ∧ c ≤ 'f' then some (c.toNat - 87)
  else if 'A' ≤ c ∧ c ≤ 'F' then some (c.toNat - 55)
  else none

/-- Accumulate the longest hexadecimal-digit prefix, as strtoul does after
its prefix handling: stop at the first non-digit. -/
def hexRun : List Char → Nat → Nat
  | [], acc => acc
  | c :: rest, acc =>
    match hexVal c with
    | some v => hexRun rest (acc * 16 + v)
    | none => acc

/-- Drop an optional 0x / 0X prefix, as strtoul does in base 16. -/
def strip0x : List Char → List Char
  | '0' :: 'x' :: rest => rest
  | '0' :: 'X' :: rest => rest
  | cs => cs

/-- strtoul(s, NULL, 16): value of the longest valid base-16 prefix
(leading whitespace and an explicit sign are not modelled; color strings
reaching this call never carry them in the claims checked here). -/
def strtoul16 (cs : List Char) : Nat :=
  hexRun (strip0x cs) 0

/-- parse_color from src/main.c lines 30-46: skip a leading hash; a length
other than 6 and 8 yields the default 0xFFFFFFFF; otherwise parse as hex
with strtoul and, for 6-character colors, shift in an opaque alpha byte.
All arithmetic is uint32_t, hence the reductions mod 2^32. -/
def parse_color (color : String) : Nat :=
  let cs := if color.data.head? = some '#' then color.data.tail else color.data
  let len := cs.length
  if len ≠ 6 ∧ len ≠ 8 then 0xFFFFFFFF
  else
    let res := strtoul16 cs % 2 ^ 32
    if len = 6 then (res * 2 ^ 8 + 0xFF) % 2 ^ 32
    else res

/-- A color string of the documented form rrggbb[aa] (usage text: "All
color options are of the form rrggbb[aa]"), after an optional hash:
exactly 6 or 8 characters, all hexadecimal digits. Used to state which
color values are well-formed when checking the configuration-error claim. -/
def color_wellformed (color : String) : Bool :=
  let cs := if color.data.head? = some '#' then color.data.tail else color.data
  (cs.length = 6 ∨ cs.length = 8) ∧ cs.all (fun c => (hexVal c).isSome)

/-- Modelled from the spec: parse_background_mode lives in the
background-image translation unit, which is not part of this source set;
the usage text of parse_options names the accepted mode strings
"stretch, fill, fit, center, tile, solid_color", and any other string is
the invalid mode that parse_options rejects. -/
def parse_background_mode (s : String) : BackgroundMode :=
  if s = "stretch" then BackgroundMode.stretch
  else if s = "fill" then BackgroundMode.fill
  else if s = "fit" then BackgroundMode.fit
  else if s = "center" then BackgroundMode.center
  else if s = "tile" then BackgroundMode.tile
  else if s = "solid_color" then BackgroundMode.solidColor
  else BackgroundMode.invalid

/-- One parsed command-line option, covering the getopt_long cases of
parse_options that the claims exercise; unknownFlag is the default case
(an unrecognized flag, which prints the usage text and fails). -/
inductive CliOption where
  | ignoreEmptyPassword
  | noIndicator
  | indicatorIdleVisible
  | backgroundMode (s : String)
  | colorText (s : String)
  | colorRing (s : String)
  | colorHlBs (s : String)
  | colorHlKey (s : String)
  | colorHlClear (s : String)
  | colorHlVer (s : String)
  | colorHlWrong (s : String)
  | clockOpt
  | unknownFlag
deriving DecidableEq

/-- One switch case of parse_options (src/main.c lines 546-673): each
option updates the args; an invalid scaling mode and an unrecognized flag
return 1, every color option stores parse_color of its argument and never
fails. -/
def apply_option (args : Args) : CliOption → Except Nat Args
  | CliOption.ignoreEmptyPassword => Except.ok { args with ignoreEmpty := true }
  | CliOption.noIndicator => Except.ok { args with showIndicator := false }
  | CliOption.indicatorIdleVisible => Except.ok { args with indicatorIdleVisible := true }
  | CliOption.backgroundMode s =>
    let m := parse_background_mode s
    if m = BackgroundMode.invalid then Except.error 1
    else Except.ok { args with mode := m }
  | CliOption.colorText s =>
    Except.ok { args with colors := { args.colors with text := parse_color s } }
  | CliOption.colorRing s =>
    Except.ok { args with colors := { args.colors with ring := parse_color s } }
  | CliOption.colorHlBs s =>
    Except.ok { args with colors := { args.colors with highlight_bs := parse_color s } }
  | CliOption.colorHlKey s =>
    Except.ok { args with colors := { args.colors with highlight_key := parse_color s } }
  | CliOption.colorHlClear s =>
    Except.ok { args with colors := { args.colors with highlight_clear := parse_color s } }
  | CliOption.colorHlVer s =>
    Except.ok { args with colors := { args.colors with highlight_ver := parse_color s } }
  | CliOption.colorHlWrong s =>
    Except.ok { args with colors := { args.colors with highlight_wrong := parse_color s } }
  | CliOption.clockOpt => Except.ok { args with clock := true }
  | CliOption.unknownFlag => Except.error 1

/-- parse_options: fold the getopt loop over an already-tokenized option
list, stopping at the first failing case with its return value. -/
def parse_options (opts : List CliOption) (args : Args) : Except Nat Args :=
  match opts with
  | [] => Except.ok args
  | o :: rest =>
    match apply_option args o with
    | Except.error c => Except.error c
    | Except.ok args2 => parse_options rest args2

/-- strcmp on the zero-test level used by this program: both callers of
lenient_strcmp only compare the result against 0, so strcmp is embedded
with the semantically equivalent ordering result -1 / 0 / 1. -/
def strcmp (a b : String) : Int :=
  if a = b then 0 else if a < b then -1 else 1

/-- lenient_strcmp from src/main.c lines 48-58: NULL pointers are ordered
before any string and equal to each other; otherwise strcmp. NULL is
embedded as none. -/
def lenient_strcmp (a b : Option String) : Int :=
  match a, b with
  | none, none => 0
  | none, some _ => -1
  | some _, none => 1
  | some x, some y => strcmp x y

/-- One entry of the state.images list: an optional output name (NULL for
the wildcard image given without an output) and an identifier standing for
the loaded cairo surface. -/
structure ImageEntry where
  outputName : Option String
  surfaceId : Nat
deriving DecidableEq

/-- select_image from src/main.c lines 301-312: walk the image list; the
first entry whose output name compares lenient-equal to the surface's
output name is returned at once, every wildcard entry passed on the way
overwrites the running default, and the last default seen is returned when
the walk finds no match. -/
def select_image (images : List ImageEntry) (outputName : Option String) : Option Nat :=
  go images none
where
  go : List ImageEntry → Option Nat → Option Nat
  | [], defaultImage => defaultImage
  | img :: rest, defaultImage =>
    if lenient_strcmp img.outputName outputName = 0 then some img.surfaceId
    else if img.outputName = none then go rest (some img.surfaceId)
    else go rest defaultImage

/-- damage_surface from src/main.c lines 163-178: a not-yet-configured
surface (zero width or height) is left alone; otherwise the surface is
marked dirty, and when no frame callback is pending one is scheduled. -/
def damage_surface (sf : RSurface) : RSurface :=
  if sf.width = 0 ∨ sf.height = 0 then sf
  else if sf.framePending then { sf with dirty := true }
  else { sf with dirty := true, framePending := true }

/-- damage_state from src/main.c lines 180-185: damage every surface. -/
def damage_state (s : SwaylockState) : SwaylockState :=
  { s with surfaces := s.surfaces.map damage_surface }

/-- display_in from src/main.c lines 757-761: a failing
wl_display_dispatch clears run_display, a successful one changes
nothing here (its effects arrive as separate dispatched events). -/
def display_in (dispatchOk : Bool) (s : SwaylockState) : SwaylockState :=
  if dispatchOk then s else { s with runDisplay := false }

/-- term_in from src/main.c lines 775-777: the wake-channel read callback
clears run_display. -/
def term_in (s : SwaylockState) : SwaylockState :=
  { s with runDisplay := false }

/-- Modelled from the spec: schedule_auth_idle lives in the password
translation unit, which is not part of this source set; per the spec an
idle/reset timer is (re)armed to transition auth_state back to Idle after
a fixed delay. -/
def schedule_auth_idle (s : SwaylockState) : SwaylockState :=
  { s with authIdleTimerArmed := true }

/-- Modelled from the spec: the callback of the armed idle/reset timer,
which transitions auth_state back to Idle (and like every transition
requests a redraw). -/
def set_auth_idle (s : SwaylockState) : SwaylockState :=
  damage_state { s with authState := AuthState.idle, authIdleTimerArmed := false }

/-- comm_in from src/main.c lines 763-773, parameterized by the verdict
read_comm_reply returned (true exactly when the reply byte reports
success): on success clear run_display; on failure set AUTH_STATE_INVALID,
arm the auth-idle timer, increment failed_attempts, and damage all
surfaces. Nothing else in the handler is touched; in particular the
password buffer is left as it was. -/
def comm_in (ok : Bool) (s : SwaylockState) : SwaylockState :=
  if ok then { s with runDisplay := false }
  else
    damage_state
      { (schedule_auth_idle { s with authState := AuthState.invalid }) with
        failedAttempts := s.failedAttempts + 1 }

/-- The single action the SIGUSR1 handler may take: a write of the given
bytes into the wake channel's write end. -/
inductive SigAction where
  | writeWakeChannel (bytes : List Nat)
deriving DecidableEq

/-- do_sigusr from src/main.c lines 297-299: the entire handler body is
one write of the single byte "1" (0x31) into sigusr_fds[1]. -/
def do_sigusr : List SigAction :=
  [SigAction.writeWakeChannel [0x31]]

/-- Readiness events of the three file descriptors registered with the
event loop (src/main.c lines 938-942), in registration order: the display
fd bound to display_in, the worker reply fd bound to comm_in, and the wake
channel read end bound to term_in. -/
inductive FdEvent where
  | displayReady (dispatchOk : Bool)
  | commReady (ok : Bool)
  | wakeReady
deriving DecidableEq

/-- Dispatch of one ready fd by loop_poll: run its registered callback. -/
def dispatch_fd (s : SwaylockState) : FdEvent → SwaylockState
  | FdEvent.displayReady ok => display_in ok s
  | FdEvent.commReady ok => comm_in ok s
  | FdEvent.wakeReady => term_in s

/-- Environment input for one iteration of the main while loop: whether
wl_display_flush fails fatally (returns -1 with errno other than EAGAIN),
and the fds loop_poll finds ready, in dispatch order. -/
structure IterInput where
  flushFail : Bool
  ready : List FdEvent
deriving DecidableEq

/-- Observable actions of the main while loop, in order: a flush of
buffered outbound display writes, or a blocking poll that dispatched the
given ready events. -/
inductive LoopAction where
  | flushAct
  | pollAct (ready : List FdEvent)
deriving DecidableEq

/-- The main while loop, src/main.c lines 951-957: while run_display, flush
(a fatal flush failure breaks out of the loop), then loop_poll dispatches
the ready callbacks. Returns the final state and the trace of actions. -/
def run_loop (iters : List IterInput) (s : SwaylockState) : SwaylockState × List LoopAction :=
  if s.runDisplay = false then (s, [])
  else
    match iters with
    | [] => (s, [])
    | it :: rest =>
      if it.flushFail then (s, [LoopAction.flushAct])
      else
        let s2 := it.ready.foldl dispatch_fd s
        let out := run_loop rest s2
        (out.1, LoopAction.flushAct :: LoopAction.pollAct it.ready :: out.2)

/-- What one wl_display_dispatch call before the lock is confirmed can
produce: a failed dispatch (negative return), delivery of the session-lock
finished event, delivery of the locked event, or anything else. -/
inductive PreLockEvent where
  | dispatchFail
  | finishedEv
  | lockedEv
  | otherEv
deriving DecidableEq

/-- Outcome of the wait-for-lock phase: the process exited with a code,
the locked event arrived, or the supplied event list ran out while still
waiting. -/
inductive WaitOutcome where
  | exited (code : Nat)
  | lockedOk
  | pending
deriving DecidableEq

/-- The while (!state.locked) loop of src/main.c lines 931-936 together
with the listener ext_session_lock_v1_handle_finished (lines 244-247): a
failed dispatch returns 2, the finished event calls exit(2), the locked
event sets state.locked and ends the loop. -/
def wait_for_lock : List PreLockEvent → WaitOutcome
  | [] => WaitOutcome.pending
  | PreLockEvent.dispatchFail :: _ => WaitOutcome.exited 2
  | PreLockEvent.finishedEv :: _ => WaitOutcome.exited 2
  | PreLockEvent.lockedEv :: _ => WaitOutcome.lockedOk
  | PreLockEvent.otherEv :: rest => wait_for_lock rest

/-- Environment outcomes main depends on between option parsing and the
event loop, in program order: password_buffer_create, pipe, fcntl,
wl_display_connect, the first roundtrip, presence of the four required
globals, the roundtrip after requesting the lock, the dispatches while
waiting for the locked event, and the per-iteration loop inputs. -/
structure Env where
  bufferOk : Bool
  pipeOk : Bool
  fcntlOk : Bool
  connectOk : Bool
  roundtrip1Ok : Bool
  haveCompositor : Bool
  haveSubcompositor : Bool
  haveShm : Bool
  haveLockMgr : Bool
  roundtrip2Ok : Bool
  prelock : List PreLockEvent
  loopIters : List IterInput
deriving DecidableEq

/-- All setup steps succeed and the locked event arrives. -/
def Env.SetupOk (env : Env) : Prop :=
  env.bufferOk = true ∧ env.pipeOk = true ∧ env.fcntlOk = true ∧
  env.connectOk = true ∧ env.roundtrip1Ok = true ∧ env.haveCompositor = true ∧
  env.haveSubcompositor = true ∧ env.haveShm = true ∧ env.haveLockMgr = true ∧
  env.roundtrip2Ok = true ∧ wait_for_lock env.prelock = WaitOutcome.lockedOk

/-- Result of a completed run of main: the exit code together with the
security-relevant facts of the exit path — whether the password buffer was
ever created and whether password_buffer_destroy ran, whether the session
lock was requested and whether unlock_and_destroy ran, whether the wake
channel's write end had been made non-blocking and whether the SIGUSR1
handler had been installed — plus the final state and the loop trace. -/
structure MainResult where
  code : Nat
  secretCreated : Bool
  secretDestroyed : Bool
  lockAcquired : Bool
  lockReleased : Bool
  wakeWriteNonblocking : Bool
  sigHandlerInstalled : Bool
  finalState : SwaylockState
  loopTrace : List LoopAction
deriving DecidableEq

/-- Shorthand for an exit before the event loop: code plus the resource
facts at that point; no loop trace exists. -/
def earlyExit (code : Nat) (secretCreated secretDestroyed lockAcquired lockReleased
    wakeNb : Bool) (s : SwaylockState) : MainResult :=
  { code := code
    secretCreated := secretCreated
    secretDestroyed := secretDestroyed
    lockAcquired := lockAcquired
    lockReleased := lockReleased
    wakeWriteNonblocking := wakeNb
    sigHandlerInstalled := false
    finalState := s
    loopTrace := [] }

/-- main from the password-buffer creation to process exit (src/main.c
lines 859-965), with every environment-dependent branch driven by env:
each failing setup step returns EXIT_FAILURE or 1 exactly as in the
source; the finished event or a failed dispatch while waiting to become
locked exits 2; otherwise run_display is set, the while loop runs, and
after it ext_session_lock_v1_unlock_and_destroy is called and main
returns 0. No path calls password_buffer_destroy. The value none stands
for main still blocked waiting for the locked event. -/
def main_after_parse (s : SwaylockState) (env : Env) : Option MainResult :=
  match env.bufferOk with
  | false => some (earlyExit 1 false false false false false s)
  | true =>
  match env.pipeOk with
  | false => some (earlyExit 1 true false false false false s)
  | true =>
  match env.fcntlOk with
  | false => some (earlyExit 1 true false false false false s)
  | true =>
  match env.connectOk with
  | false => some (earlyExit 1 true false false false true s)
  | true =>
  match env.roundtrip1Ok with
  | false => some (earlyExit 1 true false false false true s)
  | true =>
  match env.haveCompositor with
  | false => some (earlyExit 1 true false false false true s)
  | true =>
  match env.haveSubcompositor with
  | false => some (earlyExit 1 true false false false true s)
  | true =>
  match env.haveShm with
  | false => some (earlyExit 1 true false false false true s)
  | true =>
  match env.haveLockMgr with
  | false => some (earlyExit 1 true false false false true s)
  | true =>
  match env.roundtrip2Ok with
  | false => some (earlyExit 1 true false true false true s)
  | true =>
  match wait_for_lock env.prelock with
  | WaitOutcome.exited c => some (earlyExit c true false true false true s)
  | WaitOutcome.pending => none
  | WaitOutcome.lockedOk =>
    let s1 := { s with locked := true, runDisplay := true }
    let out := run_loop env.loopIters s1
    some
      { code := 0
        secretCreated := true
        secretDestroyed := false
        lockAcquired := true
        lockReleased := true
        wakeWriteNonblocking := true
        sigHandlerInstalled := true
        finalState := out.1
        loopTrace := out.2 }

/-- main from option parsing onward: a parse_options failure makes main
return that result before the password buffer is created (src/main.c
lines 850-857 precede line 861). -/
def main_startup (opts : List CliOption) (env : Env) : Option MainResult :=
  match parse_options opts default_args with
  | Except.error c => some (earlyExit c false false false false false initial_state)
  | Except.ok args => main_after_parse { initial_state with args := args } env

/-- Keystroke classes of the input state machine. -/
inductive Keystroke where
  | printable
  | backspaceKey
  | clearKey
  | submitKey
deriving DecidableEq

/-- Modelled from the spec: the keyboard handling lives in the password
translation unit, which is not part of this source set; per the spec a
printable key appends to the secret buffer and sets input Letter, the
backspace key removes the last byte (no-op at length 0) and sets input
Backspace, the clear key clears the buffer, sets input Clear and resets an
Invalid auth state to Idle, and submit is accepted only outside
Validating, drops an empty secret under the ignore-empty policy, and
otherwise sends the buffer (zeroizing the parent copy right after the
send) and enters Validating; every transition requests a redraw. -/
def handle_keystroke (s : SwaylockState) : Keystroke → SwaylockState
  | Keystroke.printable =>
    damage_state
      { s with
        password := { s.password with len := s.password.len + 1 }
        inputState := InputState.letter }
  | Keystroke.backspaceKey =>
    damage_state
      { s with
        password := { s.password with len := s.password.len - 1 }
        inputState := InputState.backspace }
  | Keystroke.clearKey =>
    damage_state
      { s with
        password := { s.password with len := 0 }
        inputState := InputState.clear
        authState := if s.authState = AuthState.invalid then AuthState.idle else s.authState }
  | Keystroke.submitKey =>
    if s.authState = AuthState.validating then s
    else if s.password.len = 0 ∧ s.args.ignoreEmpty then s
    else
      damage_state
        { s with
          password := { s.password with len := 0 }
          authState := AuthState.validating }

/-- Every operation of the program that mutates the state after startup:
the three fd callbacks, the auth-idle timer callback, and a keystroke. -/
inductive ProgEvent where
  | displayEv (dispatchOk : Bool)
  | commEv (ok : Bool)
  | termEv
  | timerEv
  | keyEv (k : Keystroke)
deriving DecidableEq

/-- Apply one program event to the state. -/
def step (s : SwaylockState) : ProgEvent → SwaylockState
  | ProgEvent.displayEv ok => display_in ok s
  | ProgEvent.commEv ok => comm_in ok s
  | ProgEvent.termEv => term_in s
  | ProgEvent.timerEv => set_auth_idle s
  | ProgEvent.keyEv k => handle_keystroke s k

/-- Drawing operations render_frame issues on the indicator buffer, in
program order: the clearing paint, the outer ring stroke, a text line
(1 = time line, 2 = date line), the typing-highlight arc, the inner and
outer two-pixel borders, the log line of the no-indicator branch, and the
final surface commits. -/
inductive RenderOp where
  | clearSurface
  | drawRing (color : Nat)
  | drawText (line : Nat)
  | drawHighlight (color : Nat)
  | drawBorders (color : Nat)
  | logNoIndicator
  | commitOp
deriving DecidableEq

/-- The color of the inner and outer border strokes, from the if chain of
render_frame: Clear input wins, then Validating, then Invalid, then the
plain ring color. -/
def border_color (s : SwaylockState) : Nat :=
  if s.inputState = InputState.clear then s.args.colors.highlight_clear
  else if s.authState = AuthState.validating then s.args.colors.highlight_ver
  else if s.authState = AuthState.invalid then s.args.colors.highlight_wrong
  else s.args.colors.ring

/-- The draw_indicator condition computed by render_frame: the indicator
is drawn when show_indicator is set and the auth state is not idle, or the
input state is not idle, or indicator_idle_visible is set. -/
def draw_indicator (s : SwaylockState) : Bool :=
  s.args.showIndicator ∧
    (s.authState ≠ AuthState.idle ∨ s.inputState ≠ InputState.idle ∨
      s.args.indicatorIdleVisible)

/-- The typing-highlight arc ops: present exactly for Letter and
Backspace input, with the key or backspace highlight color. -/
def highlight_ops (s : SwaylockState) : List RenderOp :=
  if s.inputState = InputState.letter then
    [RenderOp.drawHighlight s.args.colors.highlight_key]
  else if s.inputState = InputState.backspace then
    [RenderOp.drawHighlight s.args.colors.highlight_bs]
  else []

/-- The text-line ops: with the clock option, a line is drawn for each of
the time and date format strings that is non-empty (timetext returns NULL
for an empty format string and render_frame skips a NULL line). -/
def text_ops (s : SwaylockState) : List RenderOp :=
  (if s.args.clock ∧ s.args.timestr ≠ "" then [RenderOp.drawText 1] else []) ++
  (if s.args.clock ∧ s.args.datestr ≠ "" then [RenderOp.drawText 2] else [])

/-- render_frame from the renderer translation unit, as the sequence of
drawing operations it issues; bufferOk is whether get_next_buffer
succeeded (on failure render_frame returns before issuing anything).
After the clearing paint, the draw_indicator branch draws the ring, the
text lines, the typing highlight and the borders, and the else branch only
logs; both end in the subsurface attach/commit requests. -/
def render_frame (s : SwaylockState) (bufferOk : Bool) : List RenderOp :=
  if bufferOk = false then []
  else
    RenderOp.clearSurface ::
      ((if draw_indicator s then
          RenderOp.drawRing s.args.colors.ring ::
            (text_ops s ++ highlight_ops s ++ [RenderOp.drawBorders (border_color s)])
        else [RenderOp.logNoIndicator]) ++
        [RenderOp.commitOp])

/-- Whether an op list draws the lock indicator: the ring stroke is the
first and unconditional part of the indicator branch. -/
def draws_indicator (ops : List RenderOp) : Bool :=
  ops.any fun o =>
    match o with
    | RenderOp.drawRing _ => true
    | _ => false

/-- An op list keeps every blocking poll behind a flush when polls appear
only immediately after a flush action. -/
def flush_before_poll : List LoopAction → Bool
  | [] => true
  | LoopAction.pollAct _ :: _ => false
  | LoopAction.flushAct :: LoopAction.pollAct _ :: rest => flush_before_poll rest
  | LoopAction.flushAct :: rest => flush_before_poll rest

/-- Stated from the spec precedence rule: the exact-match entry for an
output name is the first image entry whose key is exactly that name. -/
def exact_match (images : List ImageEntry) (nm : String) : Option ImageEntry :=
  images.find? fun i => decide (i.outputName = some nm)

/-- First option if present, otherwise the second. -/
def orElseOpt (a b : Option Nat) : Option Nat :=
  match a with
  | some v => some v
  | none => b

/-- Stated from the spec precedence rule: the wildcard fallback is the
image of the last entry without a key, none when no such entry exists
(the walk of select_image overwrites its running default, so the last
wildcard is the one that survives; hence an entry later in the list takes
priority here). -/
def wildcard_fallback : List ImageEntry → Option Nat
  | [] => none
  | img :: rest =>
    orElseOpt (wildcard_fallback rest)
      (if img.outputName = none then some img.surfaceId else none)

/-- An environment in which every setup step succeeds, the locked event
arrives at once, and the loop gets no ready fds before the model input
ends. -/
def okEnv : Env :=
  { bufferOk := true
    pipeOk := true
    fcntlOk := true
    connectOk := true
    roundtrip1Ok := true
    haveCompositor := true
    haveSubcompositor := true
    haveShm := true
    haveLockMgr := true
    roundtrip2Ok := true
    prelock := [PreLockEvent.lockedEv]
    loopIters := [] }

/-- An environment identical to okEnv except that the compositor answers
the lock request with the finished event: another locker already holds
the session lock. -/
def finishedEnv : Env :=
  { okEnv with prelock := [PreLockEvent.finishedEv] }

theorem damage_state_authState (s : SwaylockState) :
    (damage_state s).authState = s.authState := rfl

theorem damage_state_failedAttempts (s : SwaylockState) :
    (damage_state s).failedAttempts = s.failedAttempts := rfl

/-- C1: a Verdict with ok = false makes the handler set auth_state to
Invalid, increment failed_attempts by exactly one, arm the idle-reset
timer whose callback returns auth_state to Idle, and damage every surface
(the redraw request); the loop flag is untouched, so the failure is never
escalated to an exit — but the handler leaves the Secret Buffer exactly
as it was instead of clearing it, which this amended statement records. -/
theorem comm_in_failed_verdict (s : SwaylockState) :
    (comm_in false s).authState = AuthState.invalid ∧
    (comm_in false s).failedAttempts = s.failedAttempts + 1 ∧
    (comm_in false s).authIdleTimerArmed = true ∧
    (set_auth_idle (comm_in false s)).authState = AuthState.idle ∧
    (comm_in false s).surfaces = s.surfaces.map damage_surface ∧
    (comm_in false s).password = s.password ∧
    (comm_in false s).runDisplay = s.runDisplay := by
  simp [comm_in, schedule_auth_idle, damage_state, set_auth_idle]

/-- C1 (counterexample): the claim says the ok = false handler clears the
Secret Buffer; on a state holding three secret bytes the handler leaves
the length at 3, so no clear happens in the handler (the buffer was
already emptied when the submission was sent). -/
theorem comm_in_false_keeps_password_counterexample :
    (comm_in false { initial_state with
      password := { len := 3, bufferLen := 1024 } }).password.len = 3 ∧
    ¬ (comm_in false { initial_state with
      password := { len := 3, bufferLen := 1024 } }).password.len = 0 := by
  exact ⟨rfl, by decide⟩

theorem step_failedAttempts_mono (s : SwaylockState) (e : ProgEvent) :
    s.failedAttempts ≤ (step s e).failedAttempts := by
  cases e with
  | displayEv ok =>
    cases ok <;> simp [step, display_in]
  | commEv ok =>
    cases ok <;> simp [step, comm_in, damage_state, schedule_auth_idle]
  | termEv => simp [step, term_in]
  | timerEv => simp [step, set_auth_idle, damage_state]
  | keyEv k =>
    cases k <;> simp only [step, handle_keystroke, damage_state] <;>
      (repeat' split) <;> simp

/-- C7: failed_attempts is 0 in the state main enters the loop with, and
every operation of the program — the three fd callbacks, the auth-idle
timer, and each keystroke class — leaves it unchanged or increments it,
so along every event sequence it is monotonically non-decreasing. -/
theorem failed_attempts_monotone :
    initial_state.failedAttempts = 0 ∧
    ∀ (es : List ProgEvent) (s : SwaylockState),
      s.failedAttempts ≤ (es.foldl step s).failedAttempts := by
  refine ⟨rfl, ?_⟩
  intro es
  induction es with
  | nil => intro s; exact Nat.le_refl _
  | cons e rest ih =>
    intro s
    exact Nat.le_trans (step_failedAttempts_mono s e) (ih (step s e))

theorem wait_exit_two :
    ∀ (evs : List PreLockEvent) (c : Nat),
      wait_for_lock evs = WaitOutcome.exited c → c = 2 := by
  intro evs
  induction evs with
  | nil => intro c h; simp [wait_for_lock] at h
  | cons e rest ih =>
    intro c h
    cases e with
    | dispatchFail =>
      simp only [wait_for_lock, WaitOutcome.exited.injEq] at h
      exact h.symm
    | finishedEv =>
      simp only [wait_for_lock, WaitOutcome.exited.injEq] at h
      exact h.symm
    | lockedEv => simp [wait_for_lock] at h
    | otherEv => exact ih c (by simpa [wait_for_lock] using h)

/-- C2: a Verdict with ok = true makes the reply handler clear the
run_display flag, and whenever setup succeeded and the event loop is
reached, main ends by calling ext_session_lock_v1_unlock_and_destroy and
returning 0. -/
theorem successful_verdict_unlocks (s : SwaylockState) (env : Env)
    (h : env.SetupOk) :
    (comm_in true s).runDisplay = false ∧
    ∃ r, main_after_parse s env = some r ∧ r.code = 0 ∧
      r.lockReleased = true ∧ r.lockAcquired = true := by
  obtain ⟨h1, h2, h3, h4, h5, h6, h7, h8, h9, h10, h11⟩ := h
  refine ⟨by simp [comm_in], ?_⟩
  simp only [main_after_parse, h1, h2, h3, h4, h5, h6, h7, h8, h9, h10, h11]
  exact ⟨_, rfl, rfl, rfl, rfl⟩

theorem successful_verdict_unlocks_witness :
    (comm_in true initial_state).runDisplay = false ∧
    ∃ r, main_after_parse initial_state okEnv = some r ∧ r.code = 0 ∧
      r.lockReleased = true ∧ r.lockAcquired = true :=
  successful_verdict_unlocks initial_state okEnv
    ⟨rfl, rfl, rfl, rfl, rfl, rfl, rfl, rfl, rfl, rfl, rfl⟩

/-- C3: while waiting to become locked, a finished event from the
compositor and a failed display dispatch each end the process with code 2,
every exit of the wait-for-lock phase carries code 2, and under an
otherwise successful setup main's result on such an exit is code 2. -/
theorem lock_failure_exits_two :
    (∀ rest, wait_for_lock (PreLockEvent.finishedEv :: rest) = WaitOutcome.exited 2 ∧
      wait_for_lock (PreLockEvent.dispatchFail :: rest) = WaitOutcome.exited 2) ∧
    (∀ evs c, wait_for_lock evs = WaitOutcome.exited c → c = 2) ∧
    (∀ (s : SwaylockState) (env : Env) (c : Nat),
      env.bufferOk = true → env.pipeOk = true → env.fcntlOk = true →
      env.connectOk = true → env.roundtrip1Ok = true → env.haveCompositor = true →
      env.haveSubcompositor = true → env.haveShm = true → env.haveLockMgr = true →
      env.roundtrip2Ok = true → wait_for_lock env.prelock = WaitOutcome.exited c →
      ∃ r, main_after_parse s env = some r ∧ r.code = 2) := by
  refine ⟨fun rest => ⟨rfl, rfl⟩, wait_exit_two, ?_⟩
  intro s env c h1 h2 h3 h4 h5 h6 h7 h8 h9 h10 h11
  have hc : c = 2 := wait_exit_two env.prelock c h11
  subst hc
  simp only [main_after_parse, h1, h2, h3, h4, h5, h6, h7, h8, h9, h10, h11]
  exact ⟨_, rfl, rfl⟩

theorem lock_failure_exits_two_witness :
    ∃ r, main_after_parse initial_state finishedEnv = some r ∧ r.code = 2 :=
  lock_failure_exits_two.2.2 initial_state finishedEnv 2
    rfl rfl rfl rfl rfl rfl rfl rfl rfl rfl rfl

/-- C4 (counterexample): the claim says every fatal exit path still runs
Secret Buffer destroy() and releases the session lock; on the concrete
session-lock-rejection path — setup succeeds, the buffer exists, the lock
was requested, then the compositor sends finished — the process exits with
code 2 having run neither. -/
theorem fatal_exit_skips_cleanup_counterexample :
    (main_after_parse initial_state finishedEnv).map
      (fun r => (r.code, r.secretCreated, r.lockAcquired,
        r.secretDestroyed, r.lockReleased)) =
    some (2, true, true, false, false) := by
  rfl

/-- C4 amended: no exit path of main runs Secret Buffer destroy at all,
and the session lock is released exactly on the clean exit path (code 0)
after the event loop; the fatal paths — session-lock rejection and the
other setup failures — exit without releasing it. -/
theorem fatal_exit_no_cleanup (s : SwaylockState) (env : Env) (r : MainResult)
    (h : main_after_parse s env = some r) :
    r.secretDestroyed = false ∧ (r.lockReleased = true ↔ r.code = 0) := by
  rw [main_after_parse] at h
  repeat' split at h
  all_goals
    first
    | exact Option.noConfusion h
    | (simp only [Option.some.injEq] at h; subst h; simp [earlyExit]; done)
    | (simp only [Option.some.injEq] at h; subst h;
       rename_i c heq
       have hc := wait_exit_two _ _ heq
       subst hc
       simp [earlyExit])

theorem fatal_exit_no_cleanup_witness :
    (earlyExit 2 true false true false true initial_state).secretDestroyed = false ∧
    ((earlyExit 2 true false true false true initial_state).lockReleased = true ↔
      (earlyExit 2 true false true false true initial_state).code = 0) :=
  fatal_exit_no_cleanup initial_state finishedEnv _ rfl

/-- C5: the SIGUSR1 handler body is exactly one action — a one-byte write
of "1" into the wake channel's write end, which main made non-blocking
before installing the handler (every completed run that installed the
handler had passed the fcntl step) — and the real handling of the wake
event is the reactor's dispatch of the channel's read end, whose
registered callback term_in just clears run_display. -/
theorem sigusr_handler_self_pipe :
    do_sigusr = [SigAction.writeWakeChannel [0x31]] ∧
    do_sigusr.length = 1 ∧
    (∀ s, dispatch_fd s FdEvent.wakeReady = { s with runDisplay := false }) ∧
    (∀ (s : SwaylockState) (env : Env) (r : MainResult),
      main_after_parse s env = some r → r.sigHandlerInstalled = true →
      r.wakeWriteNonblocking = true) := by
  refine ⟨rfl, rfl, fun s => rfl, ?_⟩
  intro s env r h hsig
  rw [main_after_parse] at h
  repeat' split at h
  all_goals
    first
    | exact Option.noConfusion h
    | (simp only [Option.some.injEq] at h; subst h; first | rfl | exact absurd hsig (by simp [earlyExit]))

theorem sigusr_handler_self_pipe_witness :
    ∃ r, main_after_parse initial_state okEnv = some r ∧ r.wakeWriteNonblocking = true :=
  ⟨_, rfl, sigusr_handler_self_pipe.2.2.2 initial_state okEnv _ rfl rfl⟩

theorem run_loop_not_running (iters : List IterInput) (s : SwaylockState)
    (h : s.runDisplay = false) : run_loop iters s = (s, []) := by
  rw [run_loop.eq_def, h]
  simp

theorem run_loop_flush_fail (it : IterInput) (rest : List IterInput)
    (s : SwaylockState) (hrun : s.runDisplay = true) (hff : it.flushFail = true) :
    run_loop (it :: rest) s = (s, [LoopAction.flushAct]) := by
  rw [run_loop.eq_def, hrun]
  simp [hff]

theorem run_loop_iteration (it : IterInput) (rest : List IterInput)
    (s : SwaylockState) (hrun : s.runDisplay = true) (hff : it.flushFail = false) :
    run_loop (it :: rest) s =
      ((run_loop rest (it.ready.foldl dispatch_fd s)).1,
        LoopAction.flushAct :: LoopAction.pollAct it.ready ::
          (run_loop rest (it.ready.foldl dispatch_fd s)).2) := by
  rw [run_loop.eq_def, hrun]
  simp [hff]

theorem run_loop_flush_before_poll (iters : List IterInput) (s : SwaylockState) :
    flush_before_poll (run_loop iters s).2 = true := by
  induction iters generalizing s with
  | nil =>
    rw [run_loop.eq_def]
    split
    · rfl
    · rfl
  | cons it rest ih =>
    cases hrun : s.runDisplay with
    | false => rw [run_loop_not_running _ _ hrun]; rfl
    | true =>
      cases hff : it.flushFail with
      | true => rw [run_loop_flush_fail _ _ _ hrun hff]; rfl
      | false =>
        rw [run_loop_iteration _ _ _ hrun hff]
        simp only [flush_before_poll]
        exact ih (it.ready.foldl dispatch_fd s)

/-- C6 amended: every blocking poll of the main while loop happens right
after a flush of the buffered outbound display writes; once run_display is
observed false the loop dispatches nothing further; while run_display is
true and the flush succeeds the loop dispatches the ready callbacks and
repeats; and a fatally failing flush also leaves the loop — after only the
flush, dispatching no callbacks — even with run_display still true, which
is the one exit the original claim omits. -/
theorem main_loop_discipline :
    (∀ (iters : List IterInput) (s : SwaylockState),
      flush_before_poll (run_loop iters s).2 = true) ∧
    (∀ (iters : List IterInput) (s : SwaylockState),
      s.runDisplay = false → run_loop iters s = (s, [])) ∧
    (∀ (it : IterInput) (rest : List IterInput) (s : SwaylockState),
      s.runDisplay = true → it.flushFail = false →
      run_loop (it :: rest) s =
        ((run_loop rest (it.ready.foldl dispatch_fd s)).1,
          LoopAction.flushAct :: LoopAction.pollAct it.ready ::
            (run_loop rest (it.ready.foldl dispatch_fd s)).2)) ∧
    (∀ (it : IterInput) (rest : List IterInput) (s : SwaylockState),
      s.runDisplay = true → it.flushFail = true →
      run_loop (it :: rest) s = (s, [LoopAction.flushAct])) :=
  ⟨run_loop_flush_before_poll, run_loop_not_running, run_loop_iteration,
    run_loop_flush_fail⟩

theorem main_loop_discipline_witness :
    run_loop [] initial_state = (initial_state, []) :=
  main_loop_discipline.2.1 [] initial_state rfl

/-- C6 (counterexample): the claim says the loop repeats exactly until
run_display is observed false; on an iteration whose flush fails fatally
the loop breaks out after the flush — dispatching none of the ready
callbacks — while run_display is still true. -/
theorem main_loop_exits_on_flush_failure_counterexample :
    (run_loop [{ flushFail := true, ready := [FdEvent.wakeReady] }]
      { initial_state with runDisplay := true }).1.runDisplay = true ∧
    (run_loop [{ flushFail := true, ready := [FdEvent.wakeReady] }]
      { initial_state with runDisplay := true }).2 = [LoopAction.flushAct] := by
  constructor
  · rfl
  · rfl

theorem apply_option_error (args : Args) (o : CliOption) (c : Nat)
    (h : apply_option args o = Except.error c) : c = 1 := by
  cases o with
  | backgroundMode s =>
    simp only [apply_option] at h
    split at h
    · injection h with h2
      exact h2.symm
    · exact Except.noConfusion h
  | unknownFlag =>
    simp only [apply_option] at h
    injection h with h2
    exact h2.symm
  | ignoreEmptyPassword => exact Except.noConfusion h
  | noIndicator => exact Except.noConfusion h
  | indicatorIdleVisible => exact Except.noConfusion h
  | colorText s => exact Except.noConfusion h
  | colorRing s => exact Except.noConfusion h
  | colorHlBs s => exact Except.noConfusion h
  | colorHlKey s => exact Except.noConfusion h
  | colorHlClear s => exact Except.noConfusion h
  | colorHlVer s => exact Except.noConfusion h
  | colorHlWrong s => exact Except.noConfusion h
  | clockOpt => exact Except.noConfusion h

theorem parse_options_error_code (opts : List CliOption) :
    ∀ (args : Args) (c : Nat), parse_options opts args = Except.error c → c = 1 := by
  induction opts with
  | nil => intro args c h; exact Except.noConfusion h
  | cons o rest ih =>
    intro args c h
    simp only [parse_options] at h
    cases ho : apply_option args o with
    | error c2 =>
      rw [ho] at h
      injection h with h2
      exact h2 ▸ apply_option_error args o c2 ho
    | ok args2 =>
      rw [ho] at h
      exact ih args2 c h

/-- C8 amended: an unrecognized flag and an invalid background-mode value
make parse_options fail with 1 and main return 1 before the password
buffer is created, but a malformed color value is not a configuration
error at all: every color option is accepted, storing parse_color of the
string (the default 0xFFFFFFFF for a string of the wrong length), and the
process keeps running. -/
theorem config_error_behavior :
    (∀ (args : Args) (s : String), ∃ args2,
      apply_option args (CliOption.colorText s) = Except.ok args2 ∧
      args2.colors.text = parse_color s) ∧
    (∀ (args : Args) (s : String), parse_background_mode s = BackgroundMode.invalid →
      apply_option args (CliOption.backgroundMode s) = Except.error 1) ∧
    (∀ args : Args, apply_option args CliOption.unknownFlag = Except.error 1) ∧
    (∀ (opts : List CliOption) (env : Env) (c : Nat),
      parse_options opts default_args = Except.error c →
      ∃ r, main_startup opts env = some r ∧ r.code = 1 ∧ r.secretCreated = false) := by
  refine ⟨fun args s => ⟨_, rfl, rfl⟩, ?_, fun args => rfl, ?_⟩
  · intro args s h
    simp [apply_option, h]
  · intro opts env c h
    have hc := parse_options_error_code opts default_args c h
    subst hc
    simp only [main_startup, h]
    exact ⟨_, rfl, rfl, rfl⟩

theorem config_error_behavior_witness :
    apply_option default_args (CliOption.backgroundMode "bogus") = Except.error 1 ∧
    ∃ r, main_startup [CliOption.unknownFlag] okEnv = some r ∧
      r.code = 1 ∧ r.secretCreated = false :=
  ⟨config_error_behavior.2.1 default_args "bogus" rfl,
    config_error_behavior.2.2.2 [CliOption.unknownFlag] okEnv 1 rfl⟩

/-- C8 (counterexample): the claim says every bad color value is reported
and makes the process exit; the malformed color "12345" (wrong length, so
not of the documented rrggbb[aa] form) is accepted without an error —
parse_options succeeds and stores the fallback color 0xFFFFFFFF — so the
process does not exit. -/
theorem bad_color_not_rejected_counterexample :
    color_wellformed "12345" = false ∧
    parse_options [CliOption.colorText "12345"] default_args =
      Except.ok { default_args with
        colors := { default_args.colors with text := 0xFFFFFFFF } } := by
  constructor
  · decide
  · rfl

theorem strcmp_eq_zero {a b : String} : strcmp a b = 0 ↔ a = b := by
  unfold strcmp
  split
  · simp_all
  · split <;> simp_all

theorem lenient_some_eq_zero {o : Option String} {nm : String} :
    lenient_strcmp o (some nm) = 0 ↔ o = some nm := by
  cases o with
  | none => simp [lenient_strcmp]
  | some a => simp [lenient_strcmp, strcmp_eq_zero]

theorem select_image_go_spec (nm : String) (images : List ImageEntry) :
    ∀ acc : Option Nat,
      (∀ e, exact_match images nm = some e →
        select_image.go (some nm) images acc = some e.surfaceId) ∧
      (exact_match images nm = none →
        select_image.go (some nm) images acc =
          orElseOpt (wildcard_fallback images) acc) := by
  induction images with
  | nil =>
    intro acc
    refine ⟨fun e he => ?_, fun _ => rfl⟩
    simp [exact_match] at he
  | cons img rest ih =>
    intro acc
    by_cases hm : img.outputName = some nm
    · have hfind : exact_match (img :: rest) nm = some img := by
        simp [exact_match, List.find?, hm]
      have hgo : select_image.go (some nm) (img :: rest) acc = some img.surfaceId := by
        simp [select_image.go, lenient_some_eq_zero.mpr hm]
      refine ⟨fun e he => ?_, fun hnone => ?_⟩
      · rw [hfind] at he
        injection he with he2
        rw [hgo, he2]
      · rw [hfind] at hnone
        exact Option.noConfusion hnone
    · have hlen : ¬ lenient_strcmp img.outputName (some nm) = 0 := fun hc =>
        hm (lenient_some_eq_zero.mp hc)
      have hfind : exact_match (img :: rest) nm = exact_match rest nm := by
        simp [exact_match, List.find?, hm]
      by_cases hw : img.outputName = none
      · have hgo : select_image.go (some nm) (img :: rest) acc =
            select_image.go (some nm) rest (some img.surfaceId) := by
          simp [select_image.go, hw, lenient_strcmp]
        have hwf : wildcard_fallback (img :: rest) =
            orElseOpt (wildcard_fallback rest) (some img.surfaceId) := by
          simp [wildcard_fallback, hw]
        refine ⟨fun e he => ?_, fun hnone => ?_⟩
        · rw [hfind] at he
          rw [hgo]
          exact (ih (some img.surfaceId)).1 e he
        · rw [hfind] at hnone
          rw [hgo, hwf, (ih (some img.surfaceId)).2 hnone]
          cases hwr : wildcard_fallback rest <;> simp [orElseOpt]
      · have hgo : select_image.go (some nm) (img :: rest) acc =
            select_image.go (some nm) rest acc := by
          simp [select_image.go, hlen, hw]
        have hwf : wildcard_fallback (img :: rest) =
            orElseOpt (wildcard_fallback rest) none := by
          simp [wildcard_fallback, hw]
        refine ⟨fun e he => ?_, fun hnone => ?_⟩
        · rw [hfind] at he
          rw [hgo]
          exact (ih acc).1 e he
        · rw [hfind] at hnone
          rw [hgo, hwf, (ih acc).2 hnone]
          cases hwr : wildcard_fallback rest <;> simp [orElseOpt]

/-- C9: for every image list and output name, select_image follows the
declared precedence — the first entry whose key exactly equals the output
name wins, and when no exact match exists the result is the wildcard
fallback (the image of the surviving absent-key entry, none when no
wildcard entry exists either). -/
theorem select_image_precedence (images : List ImageEntry) (nm : String) :
    (∀ e, exact_match images nm = some e →
      select_image images (some nm) = some e.surfaceId) ∧
    (exact_match images nm = none →
      select_image images (some nm) = wildcard_fallback images) := by
  have h := select_image_go_spec nm images none
  refine ⟨fun e he => h.1 e he, fun hn => ?_⟩
  have h2 : select_image images (some nm) = orElseOpt (wildcard_fallback images) none :=
    h.2 hn
  rw [h2]
  cases wildcard_fallback images <;> rfl

theorem select_image_precedence_witness :
    select_image [ImageEntry.mk (some "DP-1") 10, ImageEntry.mk none 20]
      (some "DP-1") = some 10 ∧
    select_image [ImageEntry.mk (some "DP-1") 10, ImageEntry.mk none 20]
      (some "DP-2") = some 20 :=
  ⟨(select_image_precedence [ImageEntry.mk (some "DP-1") 10, ImageEntry.mk none 20]
      "DP-1").1 (ImageEntry.mk (some "DP-1") 10) (by rfl),
    ((select_image_precedence [ImageEntry.mk (some "DP-1") 10, ImageEntry.mk none 20]
      "DP-2").2 (by rfl)).trans (by rfl)⟩

theorem draw_indicator_iff (s : SwaylockState) :
    draw_indicator s = true ↔
      (s.args.showIndicator = true ∧
        (s.authState ≠ AuthState.idle ∨ s.inputState ≠ InputState.idle ∨
          s.args.indicatorIdleVisible = true)) := by
  simp [draw_indicator]

theorem draws_indicator_render (s : SwaylockState) :
    draws_indicator (render_frame s true) = draw_indicator s := by
  cases hd : draw_indicator s
  · simp [render_frame, hd, draws_indicator]
  · simp [render_frame, hd, draws_indicator]

/-- C10: with a successfully allocated indicator buffer, render_frame
draws the lock indicator exactly when show_indicator is set and the auth
state is not Idle, or the input state is not Idle, or
indicator_idle_visible is set; in the remaining case the frame is the
clearing paint and the commit with no indicator ops at all. -/
theorem render_frame_indicator_condition (s : SwaylockState) :
    (draws_indicator (render_frame s true) = true ↔
      (s.args.showIndicator = true ∧
        (s.authState ≠ AuthState.idle ∨ s.inputState ≠ InputState.idle ∨
          s.args.indicatorIdleVisible = true))) ∧
    (draw_indicator s = false →
      render_frame s true =
        [RenderOp.clearSurface, RenderOp.logNoIndicator, RenderOp.commitOp]) := by
  refine ⟨?_, ?_⟩
  · rw [draws_indicator_render]
    exact draw_indicator_iff s
  · intro hd
    simp [render_frame, hd]

theorem render_frame_indicator_condition_witness :
    render_frame initial_state true =
      [RenderOp.clearSurface, RenderOp.logNoIndicator, RenderOp.commitOp] ∧
    draws_indicator
      (render_frame { initial_state with authState := AuthState.invalid } true) = true :=
  ⟨(render_frame_indicator_condition initial_state).2 (by decide),
    (render_frame_indicator_condition
        { initial_state with authState := AuthState.invalid }).1.mpr
      ⟨rfl, Or.inl (by decide)⟩⟩

end Swaylock
